import Mathlib

/-!
Shallow embedding of `packages/jupyter-ai/jupyter_ai/history.py`.

The file defines three classes:
- `YChatHistory` (the spec's WindowedHistoryView): a stateless windowed
  projection over an externally owned append-only log;
- `BoundedChatHistory` (the spec's BoundedHistoryStore): an in-memory store
  capped at `k` exchanges, with selective invalidation and full reset;
- `WrappedBoundedChatHistory` (the spec's GuardedAppender): a per-turn gate
  that commits a reply only while the bound turn is still live.

Modelling choices:
- Timestamps (`time.time()` floats, `HumanChatMessage.time`) are modelled as
  `Nat`; the code only ever compares them with `>`.
- `message.additional_kwargs` is a Python dict of which the code reads and
  writes exactly one key, `HUMAN_MSG_ID_KEY`; it is modelled as the
  `humanMsgId : Option String` field (`none` = key absent).
- Python exceptions are modelled with `Except`: `ValueError` in
  `BoundedChatHistory.add_message` is the spec's `InvalidAppendError`,
  `NotImplementedError` in `YChatHistory.clear` is the spec's
  `UnsupportedOperationError`, and the potential `KeyError` of the dict
  lookup `m.additional_kwargs[HUMAN_MSG_ID_KEY]` inside `clear` is
  `keyError`. An `Except.error` result models an exception propagating with
  the object's state unchanged (Python mutates `self` only after the points
  where these exceptions can be raised).
- Python list slicing is modelled by `pySliceLast` / explicit drop-take,
  including the `[-0:]` corner case, documented at the definitions.
-/

/-- Role of a LangChain message: `HumanMessage` or `AIMessage`. -/
inductive Role where
  | human
  | ai
deriving DecidableEq, Repr

/-- A LangChain `BaseMessage`: a role, a textual body, and the single
`additional_kwargs` entry the code uses, `HUMAN_MSG_ID_KEY`
(`none` models the key being absent from the dict). -/
structure BaseMessage where
  role : Role
  content : String
  humanMsgId : Option String := none
deriving DecidableEq, Repr

/-- An entry of the external YChat log, as returned by `ychat.get_messages()`:
a dict with a `sender` and a `body` field. -/
structure YMessage where
  sender : String
  body : String
deriving DecidableEq, Repr

/-- The Python exceptions raised by `history.py`, under the spec's names:
`invalidAppendError` is the `ValueError` of `BoundedChatHistory.add_message`,
`unsupportedOperationError` is the `NotImplementedError` of
`YChatHistory.clear`, and `keyError` is the `KeyError` a direct dict lookup
raises when the key is absent. -/
inductive HistoryError where
  | invalidAppendError
  | unsupportedOperationError
  | keyError
deriving DecidableEq, Repr

/-- A `HumanChatMessage` (the spec's Turn). The class lives in `models.py`,
outside the embedded file; `history.py` uses exactly two of its fields: the
unique identifier `id` and the submission timestamp `time`. -/
structure HumanChatMessage where
  id : String
  time : Nat
deriving DecidableEq, Repr

/-- Python slice `l[-m:]` for a nonnegative `m`. Note the corner case: for
`m = 0` the slice is `l[0:]`, the WHOLE list (Python has no negative zero),
while for `m > 0` it is the last `min m (length l)` elements. -/
def pySliceLast (m : Nat) (l : List α) : List α :=
  if m = 0 then l else l.drop (l.length - m)

/-- Python truthiness of an `Optional[List[str]]` argument: `None` and the
empty list are falsy, a non-empty list is truthy. -/
def pyTruthy (o : Option (List String)) : Bool :=
  match o with
  | none => false
  | some l => !l.isEmpty

/-- State of `BoundedChatHistory` (the spec's BoundedHistoryStore): window
size `k` (`none` = unbounded), `clear_time` (timestamp of the last full
reset, initially `0.0`), `cleared_msgs` (the set of invalidated human
message ids, initially empty), and the private append log `_all_messages`
(initially empty). -/
structure BoundedChatHistory where
  k : Option Nat
  clear_time : Nat := 0
  cleared_msgs : Finset String := ∅
  all_messages : List BaseMessage := []
deriving DecidableEq

/-- `BoundedChatHistory.messages`: returns `self._all_messages` when `k` is
`None`, otherwise the Python slice `self._all_messages[-self.k * 2 :]`. -/
def BoundedChatHistory.messages (h : BoundedChatHistory) : List BaseMessage :=
  match h.k with
  | none => h.all_messages
  | some k => pySliceLast (k * 2) h.all_messages

/-- `BoundedChatHistory.add_message`: raises `ValueError` (the spec's
`InvalidAppendError`) when `HUMAN_MSG_ID_KEY` is not in
`message.additional_kwargs`; otherwise appends `message` to the internal
log. -/
def BoundedChatHistory.add_message (h : BoundedChatHistory) (message : BaseMessage) :
    Except HistoryError BoundedChatHistory :=
  match message.humanMsgId with
  | none => .error .invalidAppendError
  | some _ => .ok { h with all_messages := h.all_messages ++ [message] }

/-- `BoundedChatHistory.clear`: on a truthy `human_msg_ids` (a non-empty
list), rebuilds `_all_messages` keeping the messages `m` with
`m.additional_kwargs[HUMAN_MSG_ID_KEY] not in human_msg_ids` — this direct
dict lookup raises `KeyError` if some stored message lacks the key, in which
case no state changes — and unions `human_msg_ids` into `cleared_msgs`.
Otherwise (`None` or empty list): empties the log, resets `cleared_msgs` to
the empty set, and sets `clear_time` to the current time `now`
(`time.time()`). -/
def BoundedChatHistory.clear (h : BoundedChatHistory)
    (human_msg_ids : Option (List String)) (now : Nat) :
    Except HistoryError BoundedChatHistory :=
  if pyTruthy human_msg_ids then
    let ids := human_msg_ids.getD []
    if h.all_messages.all (fun m => m.humanMsgId.isSome) then
      .ok { h with
        all_messages :=
          h.all_messages.filter (fun m => !(ids.contains (m.humanMsgId.getD ""))),
        cleared_msgs := h.cleared_msgs ∪ ids.toFinset }
    else
      .error .keyError
  else
    .ok { h with all_messages := [], cleared_msgs := ∅, clear_time := now }

/-- State of `WrappedBoundedChatHistory` (the spec's GuardedAppender): a
reference to the underlying store and the bound `HumanChatMessage`. -/
structure WrappedBoundedChatHistory where
  history : BoundedChatHistory
  last_human_msg : HumanChatMessage
deriving DecidableEq

/-- `WrappedBoundedChatHistory.messages`: delegates to the store. -/
def WrappedBoundedChatHistory.messages (w : WrappedBoundedChatHistory) : List BaseMessage :=
  w.history.messages

/-- `WrappedBoundedChatHistory.add_message`: if
`self.last_human_msg.time > self.history.clear_time` and
`self.last_human_msg.id not in self.history.cleared_msgs`, writes the bound
turn's id into the message's `HUMAN_MSG_ID_KEY` and delegates to
`self.history.add_message`; otherwise does nothing. -/
def WrappedBoundedChatHistory.add_message (w : WrappedBoundedChatHistory)
    (message : BaseMessage) : Except HistoryError WrappedBoundedChatHistory :=
  if w.history.clear_time < w.last_human_msg.time ∧
      w.last_human_msg.id ∉ w.history.cleared_msgs then
    match w.history.add_message { message with humanMsgId := some w.last_human_msg.id } with
    | .ok h => .ok { w with history := h }
    | .error e => .error e
  else
    .ok w

/-- `WrappedBoundedChatHistory.clear`: delegates to `self.history.clear()`
with no arguments (always a full reset). -/
def WrappedBoundedChatHistory.clear (w : WrappedBoundedChatHistory) (now : Nat) :
    Except HistoryError WrappedBoundedChatHistory :=
  match w.history.clear none now with
  | .ok h => .ok { w with history := h }
  | .error e => .error e

/-- State of `YChatHistory` (the spec's WindowedHistoryView): only the window
size `k` (`none` = unbounded). The external YChat log itself is passed to
`messages` as the snapshot `ychat.get_messages()` returns. -/
structure YChatHistory where
  k : Option Nat
deriving DecidableEq

/-- The loop body of `YChatHistory.messages`: an entry whose sender equals
the bot username becomes an `AIMessage`, every other entry a
`HumanMessage`, each carrying the entry's body. -/
def entryToMessage (botUsername : String) (m : YMessage) : BaseMessage :=
  if m.sender == botUsername then { role := .ai, content := m.body }
  else { role := .human, content := m.body }

/-- `YChatHistory.messages`: iterates over the Python slice
`all_messages[start_idx:-1]` where `start_idx = 0` if `k is None` else
`-2 * k - 1`, mapping each entry with `entryToMessage`. The drop/take pair
computes exactly the Python slice: start index `max 0 (n - (2k+1))` and stop
index `max 0 (n - 1)`, via truncated `Nat` subtraction. -/
def YChatHistory.messages (y : YChatHistory) (botUsername : String)
    (all_messages : List YMessage) : List BaseMessage :=
  let n := all_messages.length
  let start := match y.k with
    | none => 0
    | some k => n - (2 * k + 1)
  ((all_messages.drop start).take ((n - 1) - start)).map (entryToMessage botUsername)

/-- `YChatHistory.add_message`: does nothing (history is maintained by the
shared document). -/
def YChatHistory.add_message (y : YChatHistory) (_message : BaseMessage) : YChatHistory :=
  y

/-- `YChatHistory.clear`: `raise NotImplementedError()` (the spec's
`UnsupportedOperationError`); no state is touched. -/
def YChatHistory.clear (_y : YChatHistory) : Except HistoryError YChatHistory :=
  .error .unsupportedOperationError

deriving instance DecidableEq for Except

/-- Shorthand for an untagged `HumanMessage` with the given body. -/
def msgH (s : String) : BaseMessage :=
  { role := .human, content := s }

/-- Shorthand for an untagged `AIMessage` with the given body. -/
def msgA (s : String) : BaseMessage :=
  { role := .ai, content := s }

/-- One append through the gated path: build a `WrappedBoundedChatHistory`
bound to turn `t` over store `h` and call its `add_message` (which never
raises, so the `.error` branch is dead). -/
def gatedAppend (h : BoundedChatHistory) (t : HumanChatMessage) (m : BaseMessage) :
    BoundedChatHistory :=
  match WrappedBoundedChatHistory.add_message { history := h, last_human_msg := t } m with
  | .ok w => w.history
  | .error _ => h

def turnT1 : HumanChatMessage :=
  { id := "t1", time := 1 }

def turnT2 : HumanChatMessage :=
  { id := "t2", time := 2 }

def turnT3 : HumanChatMessage :=
  { id := "t3", time := 3 }

/-- Claim C1: a reply appended through a `WrappedBoundedChatHistory` bound to
a human turn is committed into the underlying store iff, at the moment of the
call, the bound turn's submission time is strictly greater than the store's
`clear_time` and the bound turn's id is not in `cleared_msgs`; when
committed, the message is first tagged with the bound turn's id and then
appended to the store's log; otherwise the call returns with everything
unchanged. -/
theorem wrapped_add_message_commit_iff_live (w : WrappedBoundedChatHistory)
    (m : BaseMessage) :
    WrappedBoundedChatHistory.add_message w m =
      if w.history.clear_time < w.last_human_msg.time ∧
          w.last_human_msg.id ∉ w.history.cleared_msgs then
        .ok { w with history := { w.history with
          all_messages := w.history.all_messages ++
            [{ m with humanMsgId := some w.last_human_msg.id }] } }
      else
        .ok w := by
  unfold WrappedBoundedChatHistory.add_message BoundedChatHistory.add_message
  split <;> rfl

/-- Claim C5: when the liveness check fails, `WrappedBoundedChatHistory`'s
append is a silent no-op: it raises nothing (`.ok`) and the whole state —
message log, invalidated set and reset timestamp included — is returned
unchanged. -/
theorem wrapped_add_message_stale_noop (w : WrappedBoundedChatHistory)
    (m : BaseMessage)
    (h : ¬(w.history.clear_time < w.last_human_msg.time ∧
        w.last_human_msg.id ∉ w.history.cleared_msgs)) :
    WrappedBoundedChatHistory.add_message w m = .ok w := by
  unfold WrappedBoundedChatHistory.add_message
  rw [if_neg h]

/-- The store of the spec's P5 scenario: a fresh `k = 2` store after a full
reset at time `2`. -/
def staleStore : BoundedChatHistory :=
  (BoundedChatHistory.clear { k := some 2 } none 2).toOption.getD { k := some 2 }

/-- The appender of the spec's P5 scenario: bound to turn `T1` submitted at
time `1`, before the full reset at time `2` of `staleStore`. -/
def staleAppender : WrappedBoundedChatHistory :=
  { history := staleStore, last_human_msg := { id := "T1", time := 1 } }

/-- Witness for C5, instantiated at the spec's P5 scenario: the store was
fully reset at time 2, the appender is bound to a turn submitted at time 1,
so appending a reply is an `.ok` no-op and `messages` stays empty. -/
theorem wrapped_add_message_stale_noop_witness :
    WrappedBoundedChatHistory.add_message staleAppender (msgA "reply") = .ok staleAppender ∧
    staleAppender.history.messages = [] :=
  ⟨wrapped_add_message_stale_noop staleAppender (msgA "reply") (by decide), by decide⟩

/-- Claim C7: `BoundedChatHistory.add_message` called with a message lacking
the human-message-id key fails with the `InvalidAppendError` (`ValueError`)
and adds nothing (an `.error` result carries no new state); called with a
tagged message it succeeds and appends the message to the internal log. -/
theorem bounded_add_message_untagged_rejected (h : BoundedChatHistory)
    (m : BaseMessage) :
    (m.humanMsgId = none →
      BoundedChatHistory.add_message h m = .error .invalidAppendError) ∧
    (∀ i, m.humanMsgId = some i →
      BoundedChatHistory.add_message h m =
        .ok { h with all_messages := h.all_messages ++ [m] }) := by
  constructor
  · intro hm
    unfold BoundedChatHistory.add_message
    rw [hm]
  · intro i hm
    unfold BoundedChatHistory.add_message
    rw [hm]

/-- Witness for C7: on a fresh `k = 2` store, an untagged message is rejected
with `invalidAppendError`, and the same message tagged with `"t1"` is
appended. -/
theorem bounded_add_message_untagged_rejected_witness :
    BoundedChatHistory.add_message { k := some 2 } (msgH "hi") =
      .error .invalidAppendError ∧
    BoundedChatHistory.add_message { k := some 2 }
        { msgH "hi" with humanMsgId := some "t1" } =
      .ok { k := some 2,
            all_messages := [{ msgH "hi" with humanMsgId := some "t1" }] } :=
  ⟨(bounded_add_message_untagged_rejected { k := some 2 } (msgH "hi")).1 rfl,
   (bounded_add_message_untagged_rejected { k := some 2 }
      { msgH "hi" with humanMsgId := some "t1" }).2 "t1" rfl⟩

/-- Claim C8: every invocation of `YChatHistory.clear` raises
(`NotImplementedError`, the spec's `UnsupportedOperationError`): the result
is always the propagated error and never a new state. -/
theorem ychat_clear_raises_unsupported (y : YChatHistory) :
    YChatHistory.clear y = .error .unsupportedOperationError :=
  rfl

/-- Claim C9: `BoundedChatHistory.clear` with an empty id list takes the
falsy branch of `if human_msg_ids:` and acts as a full reset — emptying the
log, resetting `cleared_msgs` to the empty set and stamping `clear_time`
with the current time — exactly like `clear` with no argument. -/
theorem clear_empty_list_is_full_reset (h : BoundedChatHistory) (now : Nat) :
    BoundedChatHistory.clear h (some []) now =
      .ok { h with all_messages := [], cleared_msgs := ∅, clear_time := now } ∧
    BoundedChatHistory.clear h (some []) now = BoundedChatHistory.clear h none now :=
  ⟨rfl, rfl⟩

/-- The store of the spec's k=2 scenario after six gated appends: exchanges
for turns `"t1"`, `"t2"`, `"t3"` (2 messages each), in that order, all
while every turn is live. -/
def scenarioStore6 : BoundedChatHistory :=
  gatedAppend (gatedAppend (gatedAppend (gatedAppend (gatedAppend (gatedAppend
    { k := some 2 } turnT1 (msgH "h1")) turnT1 (msgA "a1")) turnT2 (msgH "h2"))
    turnT2 (msgA "a2")) turnT3 (msgH "h3")) turnT3 (msgA "a3")

/-- The scenario store after the selective `clear(["t2"])` at time 10. -/
def scenarioAfterClear : BoundedChatHistory :=
  (BoundedChatHistory.clear scenarioStore6 (some ["t2"]) 10).toOption.getD scenarioStore6

/-- Counterexample to claim C2: after `clear(["t2"])`, `messages` does NOT
return only t3's 2 messages — it returns 4 messages (t1's two messages
re-enter the k=2 window once t2's are removed from the log). -/
theorem selective_clear_scenario_cex :
    scenarioAfterClear.messages ≠
      [{ role := .human, content := "h3", humanMsgId := some "t3" },
       { role := .ai, content := "a3", humanMsgId := some "t3" }] ∧
    scenarioAfterClear.messages.length = 4 := by
  decide

/-- Claim C2 as amended: with `k = 2`, after gated appends for turns "t1",
"t2", "t3" (2 messages each), `messages` returns t2's and t3's 4 messages
(t1's evicted); after `clear(["t2"])` succeeds, `messages` returns t1's and
t3's 4 messages — t2's messages are removed from the internal log, and since
the window is re-sliced at read time, t1's previously evicted messages
re-enter it. -/
theorem selective_clear_scenario_amended :
    scenarioStore6.messages =
      [{ role := .human, content := "h2", humanMsgId := some "t2" },
       { role := .ai, content := "a2", humanMsgId := some "t2" },
       { role := .human, content := "h3", humanMsgId := some "t3" },
       { role := .ai, content := "a3", humanMsgId := some "t3" }] ∧
    BoundedChatHistory.clear scenarioStore6 (some ["t2"]) 10 = .ok scenarioAfterClear ∧
    scenarioAfterClear.messages =
      [{ role := .human, content := "h1", humanMsgId := some "t1" },
       { role := .ai, content := "a1", humanMsgId := some "t1" },
       { role := .human, content := "h3", humanMsgId := some "t3" },
       { role := .ai, content := "a3", humanMsgId := some "t3" }] := by
  decide

/-- A store reached from a fresh `k = 2` store by the selective
`clear(["a"])` at time 3: its `cleared_msgs` is the singleton set of "a". -/
def shrinkStore1 : BoundedChatHistory :=
  (BoundedChatHistory.clear { k := some 2 } (some ["a"]) 3).toOption.getD { k := some 2 }

/-- `shrinkStore1` after the full reset `clear()` at time 4: its
`cleared_msgs` is empty again. -/
def shrinkStore2 : BoundedChatHistory :=
  (BoundedChatHistory.clear shrinkStore1 none 4).toOption.getD shrinkStore1

/-- Counterexample to claim C3: a full reset SHRINKS the invalidated set.
From a fresh store, `clear(["a"])` puts "a" into `cleared_msgs`, and the
subsequent full `clear()` resets `cleared_msgs` to the empty set, removing
"a" — so a clear operation does shrink the invalidated set. -/
theorem full_reset_shrinks_cleared_msgs_cex :
    BoundedChatHistory.clear { k := some 2 } (some ["a"]) 3 = .ok shrinkStore1 ∧
    BoundedChatHistory.clear shrinkStore1 none 4 = .ok shrinkStore2 ∧
    "a" ∈ shrinkStore1.cleared_msgs ∧ "a" ∉ shrinkStore2.cleared_msgs := by
  decide

/-- Claim C3 as amended: on every successful `clear`, a selective clear (a
truthy, i.e. non-empty, id list) only adds to `cleared_msgs` and leaves
`clear_time` unchanged, while a full clear (falsy argument) resets
`cleared_msgs` to the empty set and stamps `clear_time` with the current
time; assuming the clock reading is not before the stored `clear_time`
(`time.time()` monotone), `clear_time` never moves backward. -/
theorem clear_monotonicity_amended (h h' : BoundedChatHistory)
    (ids : Option (List String)) (now : Nat)
    (hok : BoundedChatHistory.clear h ids now = .ok h')
    (hclk : h.clear_time ≤ now) :
    h.clear_time ≤ h'.clear_time ∧
    (pyTruthy ids = true →
      h.cleared_msgs ⊆ h'.cleared_msgs ∧ h'.clear_time = h.clear_time) ∧
    (pyTruthy ids = false →
      h'.cleared_msgs = ∅ ∧ h'.clear_time = now) := by
  unfold BoundedChatHistory.clear at hok
  split at hok
  case isTrue ht =>
    split at hok
    case isTrue hall =>
      cases hok
      refine ⟨le_refl _, fun _ => ⟨Finset.subset_union_left, rfl⟩, fun hf => ?_⟩
      rw [ht] at hf
      cases hf
    case isFalse hall =>
      cases hok
  case isFalse ht =>
    cases hok
    refine ⟨hclk, fun htr => ?_, fun _ => ⟨rfl, rfl⟩⟩
    rw [Bool.not_eq_true] at ht
    rw [ht] at htr
    cases htr

/-- Witness for the amended C3, instantiated at the selective `clear(["a"])`
at time 3 on a fresh `k = 2` store (which yields `shrinkStore1`). -/
theorem clear_monotonicity_amended_witness :
    ({ k := some 2 } : BoundedChatHistory).clear_time ≤ shrinkStore1.clear_time ∧
    (pyTruthy (some ["a"]) = true →
      ({ k := some 2 } : BoundedChatHistory).cleared_msgs ⊆ shrinkStore1.cleared_msgs ∧
      shrinkStore1.clear_time = ({ k := some 2 } : BoundedChatHistory).clear_time) ∧
    (pyTruthy (some ["a"]) = false →
      shrinkStore1.cleared_msgs = ∅ ∧ shrinkStore1.clear_time = 3) :=
  clear_monotonicity_amended { k := some 2 } shrinkStore1 (some ["a"]) 3
    (by decide) (by decide)

/-- A `k = 0` store holding one full exchange appended through the gated
path while its turn was live. -/
def kZeroStore : BoundedChatHistory :=
  gatedAppend (gatedAppend { k := some 0 } turnT1 (msgH "h1")) turnT1 (msgA "a1")

/-- Claim C4, evaluated at the failing input `k = 0`, `N = 1` exchange: the
spec demands the last `0` exchanges, i.e. `[]`, but the Python slice
`self._all_messages[-0:]` is `[0:]`, so `messages` returns ALL stored
messages — here 2 — contradicting the class docstring that the store keeps
up to `k` exchanges. -/
theorem k_zero_messages_returns_all :
    kZeroStore.all_messages.length = 2 ∧
    kZeroStore.messages = kZeroStore.all_messages ∧
    kZeroStore.messages.length ≠ 0 := by
  decide

/-- The windowed read as the spec words it: drop the final log entry (the
just-submitted turn); with unbounded `k` keep all remaining entries, with
finite `k` keep the last `2k` of them (everything that remains when fewer);
map each entry by sender as in `entryToMessage`. -/
def ychatMessagesModel (botUsername : String) (log : List YMessage)
    (k : Option Nat) : List BaseMessage :=
  let preceding := log.dropLast
  let window := match k with
    | none => preceding
    | some k => preceding.drop (preceding.length - 2 * k)
  window.map (entryToMessage botUsername)

/-- Claim C6: `YChatHistory.messages` is exactly the pure projection
described by the spec (`ychatMessagesModel`): all entries but the last when
`k` is unbounded, the last `2k` entries before the final one (or everything
available minus the last entry on a short log) when `k` is finite, each
mapped to an assistant-role message iff its sender is the bot username; an
empty log or a one-entry log yields `[]` (its `dropLast` is `[]`). -/
theorem ychat_messages_is_windowed_projection (y : YChatHistory)
    (botUsername : String) (log : List YMessage) :
    YChatHistory.messages y botUsername log = ychatMessagesModel botUsername log y.k := by
  rcases y with ⟨k⟩
  cases k with
  | none =>
    simp [YChatHistory.messages, ychatMessagesModel, List.dropLast_eq_take]
  | some k =>
    have h1 : log.length - 1 - 2 * k = log.length - (2 * k + 1) := by omega
    have h2 : (log.length - 1) ⊓ log.length = log.length - 1 :=
      Nat.min_eq_left (Nat.sub_le _ _)
    simp only [YChatHistory.messages, ychatMessagesModel, List.dropLast_eq_take,
      List.length_take, List.drop_take, h2, h1]

/-- The store states reachable from a fresh `BoundedChatHistory` by the
operations of `history.py`: direct `add_message`, gated
`WrappedBoundedChatHistory.add_message`, and `clear` — counting only the
successful (non-raising) outcomes, since a raised exception leaves the state
unchanged. -/
inductive Reachable : BoundedChatHistory → Prop where
  | init (k : Option Nat) : Reachable { k := k }
  | add (h h' : BoundedChatHistory) (m : BaseMessage) (hr : Reachable h)
      (heq : BoundedChatHistory.add_message h m = .ok h') : Reachable h'
  | gated (w w' : WrappedBoundedChatHistory) (m : BaseMessage)
      (hr : Reachable w.history)
      (heq : WrappedBoundedChatHistory.add_message w m = .ok w') :
      Reachable w'.history
  | cleared (h h' : BoundedChatHistory) (ids : Option (List String)) (now : Nat)
      (hr : Reachable h)
      (heq : BoundedChatHistory.clear h ids now = .ok h') : Reachable h'

/-- Every message in the log of a reachable store carries the
human-message-id key: `add_message` rejects untagged messages, the gated
append tags before delegating, and both clear branches only remove
messages. -/
theorem reachable_all_tagged (h : BoundedChatHistory) (hr : Reachable h) :
    ∀ m ∈ h.all_messages, m.humanMsgId.isSome := by
  induction hr with
  | init k =>
    intro m hm
    exact absurd hm (List.not_mem_nil m)
  | add h h' m hr heq ih =>
    unfold BoundedChatHistory.add_message at heq
    cases hmid : m.humanMsgId with
    | none =>
      rw [hmid] at heq
      exact Except.noConfusion heq
    | some i =>
      rw [hmid] at heq
      injection heq with heq2
      subst heq2
      intro x hx
      simp only [List.mem_append, List.mem_singleton] at hx
      cases hx with
      | inl hx => exact ih x hx
      | inr hx =>
        subst hx
        rw [hmid]
        rfl
  | gated w w' m hr heq ih =>
    unfold WrappedBoundedChatHistory.add_message at heq
    split at heq
    · unfold BoundedChatHistory.add_message at heq
      simp only at heq
      injection heq with heq2
      subst heq2
      intro x hx
      simp only [List.mem_append, List.mem_singleton] at hx
      cases hx with
      | inl hx => exact ih x hx
      | inr hx =>
        subst hx
        rfl
    · injection heq with heq2
      subst heq2
      exact ih
  | cleared h h' ids now hr heq ih =>
    unfold BoundedChatHistory.clear at heq
    split at heq
    · split at heq
      · injection heq with heq2
        subst heq2
        intro x hx
        rw [List.mem_filter] at hx
        exact ih x hx.1
      · exact Except.noConfusion heq
    · injection heq with heq2
      subst heq2
      intro x hx
      exact absurd hx (List.not_mem_nil x)

/-- Claim C10: every reachable `BoundedChatHistory` state has the
human-message-id key on every stored message, so the direct dict lookup in
the selective-clear comprehension never raises: `clear` always returns
successfully on reachable states, for any argument. -/
theorem reachable_clear_never_key_faults (h : BoundedChatHistory)
    (hr : Reachable h) :
    (∀ m ∈ h.all_messages, m.humanMsgId.isSome) ∧
    (∀ ids now, (BoundedChatHistory.clear h ids now).isOk = true) := by
  have ht := reachable_all_tagged h hr
  refine ⟨ht, fun ids now => ?_⟩
  unfold BoundedChatHistory.clear
  split
  · rw [if_pos (List.all_eq_true.mpr fun x hx => ht x hx)]
    rfl
  · rfl

/-- A concrete reachable store: a fresh `k = 2` store after one direct
`add_message` of a message tagged with `"t1"`. -/
def taggedStoreExample : BoundedChatHistory :=
  { k := some 2,
    all_messages := [{ role := .human, content := "h1", humanMsgId := some "t1" }] }

/-- Witness for C10: `taggedStoreExample` is reachable (init, then one
successful `add_message`), every stored message is tagged, and both a
selective and a full `clear` on it return successfully. -/
theorem reachable_clear_never_key_faults_witness :
    ((BoundedChatHistory.clear taggedStoreExample (some ["t1"]) 5).isOk = true) ∧
    ((BoundedChatHistory.clear taggedStoreExample none 7).isOk = true) :=
  ⟨(reachable_clear_never_key_faults taggedStoreExample
      (Reachable.add { k := some 2 } taggedStoreExample
        { role := .human, content := "h1", humanMsgId := some "t1" }
        (Reachable.init (some 2)) rfl)).2 (some ["t1"]) 5,
   (reachable_clear_never_key_faults taggedStoreExample
      (Reachable.add { k := some 2 } taggedStoreExample
        { role := .human, content := "h1", humanMsgId := some "t1" }
        (Reachable.init (some 2)) rfl)).2 none 7⟩
